import Mathlib

/-!
Verification of the orca reddit client library (src/src/lib.rs) against its
natural-language specification.

The file embeds the `App` methods of `src/src/lib.rs` shallowly: HTTP traffic
is modelled by an explicit transport oracle (a function from requests to
transport failures or HTTP responses), and each method returns its result
together with the list of requests it handed to the transport.  The modules
`net`, `data` and `errors` referenced by `lib.rs` are not part of the sources;
where a claim depends on them, the corresponding definitions are modelled from
the spec and carry a doc comment saying so.
-/

set_option autoImplicit false

namespace Orca

/-- JSON values, embedding `serde_json::Value` (objects as association lists). -/
inductive Value where
  | null : Value
  | bool (b : Bool) : Value
  | num (n : Int) : Value
  | str (s : String) : Value
  | arr (xs : List Value) : Value
  | obj (fields : List (String × Value)) : Value
deriving Repr

/-- Array indexing `v[i]` as in `serde_json`: element `i` of an array, `Null`
when the value is not an array or the index is out of bounds. -/
def Value.index (v : Value) (i : Nat) : Value :=
  match v with
  | .arr xs => xs.getD i .null
  | _ => .null

/-- Field access on a JSON object, `none` when the value is not an object or
the key is absent. -/
def Value.getField (v : Value) (k : String) : Option Value :=
  match v with
  | .obj fields => fields.lookup k
  | _ => none

/-- Modelled from the spec: the error kinds of the missing `errors` module
(§7): `BadRequest`, `Forbidden`, `NotFound`, `BadResponse`, `Transient`. -/
inductive RedditError where
  | BadRequest : RedditError
  | Forbidden : RedditError
  | NotFound : RedditError
  | BadResponse : RedditError
  | Transient : RedditError
deriving Repr, DecidableEq

/-- An outbound HTTP request: method, URL, form body (association list of
parameters) and the bearer token attached to it, if any. -/
structure Request where
  method : String
  url : String
  form : List (String × String)
  token : Option String
deriving Repr, DecidableEq

/-- An HTTP response: status code and, when the body parses as JSON, the
parsed value (`none` models an unparseable body). -/
structure HttpResponse where
  status : Nat
  body : Option Value
deriving Repr

/-- The transport (the HTTP client consumed as a black box, §6): maps each
request to either a transport/network failure or an HTTP response. -/
def Transport : Type := Request → Except Unit HttpResponse

/-- An OAuth2 bearer token held by an authorized session (`net::auth::Auth`). -/
structure Auth where
  token : String
deriving Repr, DecidableEq

/-- The connection object (`net::Connection`); `lib.rs` reads and writes its
`auth` field, an optional `Auth`. -/
structure Connection where
  auth : Option Auth
deriving Repr, DecidableEq

/-- The `App` struct of `lib.rs`: a connection. -/
structure App where
  conn : Connection
deriving Repr, DecidableEq

/-- Modelled from the spec: the HTTP status classification of the missing
`net::Connection` request runner (§4.2 table): 2xx with parseable JSON body is
success; 2xx unparseable is `BadResponse`; 400 is `BadRequest`; 401/403 are
`Forbidden`; 404 is `NotFound`; anything else is `BadResponse`. -/
def classifyResponse (r : HttpResponse) : Except RedditError Value :=
  if 200 ≤ r.status ∧ r.status < 300 then
    match r.body with
    | some v => .ok v
    | none => .error .BadResponse
  else if r.status = 400 then .error .BadRequest
  else if r.status = 401 ∨ r.status = 403 then .error .Forbidden
  else if r.status = 404 then .error .NotFound
  else .error .BadResponse

/-- Modelled from the spec: `Connection::run_request` (§4.2, missing `net`
module): sends the request unauthenticated and classifies the outcome; a
transport failure surfaces as `Transient`.  Returns the result together with
the requests handed to the transport. -/
def run_request (t : Transport) (req : Request) :
    Except RedditError Value × List Request :=
  (match t req with
   | .error _ => .error .Transient
   | .ok r => classifyResponse r,
   [req])

/-- Attach the session's bearer token to a request. -/
def withAuth (a : Auth) (req : Request) : Request :=
  { req with token := some a.token }

/-- Modelled from the spec: `Connection::run_auth_request` (§4.2, missing
`net` module): obtains the session token first; with no token it reports
Forbidden without sending; otherwise it sends the token-bearing request and
classifies the outcome exactly as the unauthenticated path does. -/
def run_auth_request (conn : Connection) (t : Transport) (req : Request) :
    Except RedditError Value × List Request :=
  match conn.auth with
  | none => (.error .Forbidden, [])
  | some a => run_request t (withAuth a req)

/-- Result of a public operation: a value, an error value returned to the
caller, or an uncatchable fault (a Rust `panic`, as caused by `.unwrap()`). -/
inductive Outcome (α : Type) where
  | ok (a : α) : Outcome α
  | err (e : RedditError) : Outcome α
  | panic : Outcome α
deriving Repr, DecidableEq

/-- Lift an `Except` result into an `Outcome` (errors stay caller-visible
error values). -/
def Outcome.ofExcept {α : Type} : Except RedditError α → Outcome α
  | .ok a => .ok a
  | .error e => .err e

/-- Modelled from the spec: the time windows of `data::SortTime` (§3). -/
inductive SortTime where
  | hour | day | week | month | year | all
deriving Repr, DecidableEq

/-- Modelled from the spec: the listing sorts of `data::Sort` (§3), pure value
objects whose only behavior is producing query parameters.  The source name
`Sort` is a Lean keyword, hence the name `SortOrder`. -/
inductive SortOrder where
  | hot : SortOrder
  | new : SortOrder
  | top (time : SortTime) : SortOrder
deriving Repr, DecidableEq

/-- Query-parameter name of a time window. -/
def SortTime.param : SortTime → String
  | .hour => "hour"
  | .day => "day"
  | .week => "week"
  | .month => "month"
  | .year => "year"
  | .all => "all"

/-- Modelled from the spec: the query parameters produced by a sort (§3). -/
def SortOrder.param : SortOrder → List (String × String)
  | .hot => [("sort", "hot")]
  | .new => [("sort", "new")]
  | .top time => [("sort", "top"), ("t", time.param)]

/-- Modelled from the spec: `data::Listing` (§3): an ordered sequence of items
plus the two pagination cursors. -/
structure Listing (T : Type) where
  before : Option String
  after : Option String
  children : List T
deriving Repr

/-- Modelled from the spec: `data::Comment` (§3): either a fully loaded
comment with its replies, or a stub recording the ordered child IDs still to
be fetched. -/
inductive Comment where
  | Loaded (id body author : String) (created : Int) (replies : Listing Comment) : Comment
  | NotLoaded (parent_id : String) (child_ids : List String) : Comment
deriving Repr

theorem sizeOf_lookup {fields : List (String × Value)} {k : String} {w : Value}
    (h : fields.lookup k = some w) : sizeOf w < sizeOf fields := by
  induction fields with
  | nil => simp [List.lookup] at h
  | cons p rest ih =>
    rw [List.lookup] at h
    by_cases hk : k == p.1
    · simp [hk] at h
      subst h
      rcases p with ⟨a, b⟩
      simp
      omega
    · simp [hk] at h
      have := ih h
      simp
      omega

theorem sizeOf_getField {v w : Value} {k : String}
    (h : v.getField k = some w) : sizeOf w < sizeOf v := by
  cases v <;> simp [Value.getField] at h
  case obj fields =>
    have := sizeOf_lookup h
    simp
    omega

/-- Read a pagination cursor out of an optional JSON value: a string is a
cursor, anything else (absent, null) is no cursor. -/
def optCursor : Option Value → Option String
  | some (.str s) => some s
  | _ => none

/-- Parse a JSON array of strings (the child-ID list of a "more" stub). -/
def parseStringList : List Value → Except RedditError (List String)
  | [] => .ok []
  | .str s :: rest => do
      let xs ← parseStringList rest
      .ok (s :: xs)
  | _ => .error .BadResponse

mutual

/-- Modelled from the spec: the listing half of `CommentTree.materialize`
(§4.4, §6): a listing envelope carries `kind = "Listing"` and a `data` object
with `children`, `before` and `after`; every child is parsed recursively; any
other shape is a `BadResponse`. -/
def parseListing (v : Value) : Except RedditError (Listing Comment) :=
  match hk : v.getField "kind", hd : v.getField "data" with
  | some (.str "Listing"), some d =>
    (match hc : d.getField "children" with
     | some (.arr cs) => do
         let comments ← parseComments cs
         .ok ⟨optCursor (d.getField "before"), optCursor (d.getField "after"), comments⟩
     | _ => .error .BadResponse)
  | _, _ => .error .BadResponse
termination_by sizeOf v
decreasing_by
  have h1 := sizeOf_getField hd
  have h2 := sizeOf_getField hc
  simp at h2 ⊢
  omega

/-- Parse the children of a listing envelope in order. -/
def parseComments (cs : List Value) : Except RedditError (List Comment) :=
  match cs with
  | [] => .ok []
  | c :: rest => do
      let x ← parseComment c
      let xs ← parseComments rest
      .ok (x :: xs)
termination_by sizeOf cs
decreasing_by
  all_goals first | omega | (simp; omega) | simp

/-- Modelled from the spec: the entry half of `CommentTree.materialize`
(§4.4, §6): an entry whose `kind` marks a "more" stub becomes `NotLoaded`,
capturing the parent ID and the ordered child-ID array; an entry carrying
body/author/timestamp fields becomes `Loaded`, recursing into its `replies`
field (a non-object `replies` value means no replies). -/
def parseComment (v : Value) : Except RedditError Comment :=
  match hk : v.getField "kind", hd : v.getField "data" with
  | some (.str "more"), some d =>
    (match d.getField "parent_id", d.getField "children" with
     | some (.str p), some (.arr ids) => do
         let cids ← parseStringList ids
         .ok (.NotLoaded p cids)
     | _, _ => .error .BadResponse)
  | some (.str "t1"), some d =>
    (match d.getField "id", d.getField "body", d.getField "author", d.getField "created" with
     | some (.str i), some (.str b), some (.str a), some (.num c) =>
       (match hr : d.getField "replies" with
        | some (.obj fs) => do
            let reps ← parseListing (.obj fs)
            .ok (.Loaded i b a c reps)
        | _ => .ok (.Loaded i b a c ⟨none, none, []⟩))
     | _, _, _, _ => .error .BadResponse)
  | _, _ => .error .BadResponse
termination_by sizeOf v
decreasing_by
  have h1 := sizeOf_getField hd
  have h2 := sizeOf_getField hr
  omega

end

/-- Modelled from the spec: `Listing::<Comment>::from_value` of the missing
`data` module: materialize a comment-listing JSON response (§4.4). -/
def Listing.from_value (v : Value) : Except RedditError (Listing Comment) :=
  parseListing v

/-- Insertion into the form-parameter map, embedding
`HashMap::insert` (any earlier binding of the key is replaced). -/
def insertParam (m : List (String × String)) (k v : String) : List (String × String) :=
  m.filter (fun p => p.1 != k) ++ [(k, v)]

/-- Modelled from the spec: the credentials supplied at authorization time
(§3), immutable once constructed. -/
structure Credentials where
  username : String
  password : String
deriving Repr, DecidableEq

namespace App

/-- Embedding of `App::authorize` (lib.rs lines 69-75).  The OAuth2 grant
exchange `Auth::new` lives in the missing `net::auth` module and is modelled
as the oracle `grant`, which maps the supplied credentials and the index of
the attempt to that attempt's outcome; `i` is the index of the next unused
attempt.  On grant failure the method returns `Forbidden` and leaves the
connection untouched; on success it stores the obtained `Auth` in
`conn.auth`, replacing whatever was there.  Returns the result, the updated
app and the next attempt index. -/
def authorize (grant : Credentials → Nat → Except Unit Auth) (i : Nat)
    (app : App) (creds : Credentials) :
    Except RedditError Unit × App × Nat :=
  match grant creds i with
  | .ok auth => (.ok (), { conn := { auth := some auth } }, i + 1)
  | .error _ => (.error .Forbidden, app, i + 1)

/-- Embedding of `App::get_posts` (lib.rs lines 83-102).  URL construction
(`Url::parse_with_params` of the black-box HTTP crate) is the oracle
`parseWithParams`; when it fails the method returns `BadRequest` without
running any request, otherwise it runs one unauthenticated GET request. -/
def get_posts (parseWithParams : String → List (String × String) → Option String)
    (t : Transport) (app : App) (sub : String) (sort : SortOrder) :
    Outcome Value × List Request :=
  match parseWithParams ("https://www.reddit.com/r/" ++ sub ++ "/.json") sort.param with
  | some url =>
      let req : Request := ⟨"GET", url, [], none⟩
      let res := run_request t req
      (.ofExcept res.1, res.2)
  | none => (.err .BadRequest, [])

/-- Embedding of `App::submit_self` (lib.rs lines 111-130): builds the form
parameters, posts them to the submit endpoint and runs the request
authenticated. -/
def submit_self (t : Transport) (app : App) (sub title text : String)
    (sendreplies : Bool) : Outcome Value × List Request :=
  let params := insertParam (insertParam (insertParam (insertParam (insertParam []
      "sr" sub) "kind" "self") "title" title) "text" text)
      "sendreplies" (if sendreplies then "true" else "false")
  let req : Request := ⟨"POST", "https://oauth.reddit.com/api/submit/.json", params, none⟩
  let res := run_auth_request app.conn t req
  (.ofExcept res.1, res.2)

/-- Embedding of `App::get_self` (lib.rs lines 137-144). -/
def get_self (t : Transport) (app : App) : Outcome Value × List Request :=
  let req : Request := ⟨"GET", "https://oauth.reddit.com/api/v1/me/.json", [], none⟩
  let res := run_auth_request app.conn t req
  (.ofExcept res.1, res.2)

/-- Embedding of `App::get_user` (lib.rs lines 146-153). -/
def get_user (t : Transport) (app : App) (name : String) :
    Outcome Value × List Request :=
  let req : Request := ⟨"GET", "https://www.reddit.com/user/" ++ name ++ "/about/.json", [], none⟩
  let res := run_request t req
  (.ofExcept res.1, res.2)

/-- Embedding of `App::get_comment_tree` (lib.rs lines 166-180): runs one
unauthenticated GET of the post's comment page and, on success, parses
element 1 of the response array (element 0, the post body, is dropped) with
`Listing::from_value`. -/
def get_comment_tree (t : Transport) (app : App) (post : String) :
    Outcome (Listing Comment) × List Request :=
  let req : Request := ⟨"GET", "https://www.reddit.com/comments/" ++ post ++ "/.json", [], none⟩
  let res := run_request t req
  ((match res.1 with
    | .error e => .err e
    | .ok data => .ofExcept (Listing.from_value (data.index 1))), res.2)

/-- Embedding of `App::more_children` (lib.rs lines 183-186): the body of the
source function is empty, so it runs no request and returns unit. -/
def more_children (_t : Transport) (_app : App) (_comment : List String) :
    Unit × List Request :=
  ((), [])

/-- Embedding of `App::comment` (lib.rs lines 192-206): builds the form
parameters, runs the request authenticated and calls `.unwrap()` on the
result, so an error result becomes a panic. -/
def comment (t : Transport) (app : App) (text thing : String) :
    Outcome Unit × List Request :=
  let params := insertParam (insertParam [] "text" text) "thing_id" thing
  let req : Request := ⟨"POST", "https://oauth.reddit.com/api/comment", params, none⟩
  let res := run_auth_request app.conn t req
  ((match res.1 with
    | .ok _ => .ok ()
    | .error _ => .panic), res.2)

/-- Embedding of `App::set_sticky` (lib.rs lines 213-241): rejects a slot
other than 1 or 2 with `BadRequest` before any request; otherwise builds the
form (`state`, optional `num`, `id`) and runs it authenticated, propagating
any error. -/
def set_sticky (t : Transport) (app : App) (sticky : Bool) (slot : Option Int)
    (id : String) : Outcome Unit × List Request :=
  let params0 := insertParam [] "state" (if sticky then "1" else "0")
  let finish := fun (params : List (String × String)) =>
    let params := insertParam params "id" id
    let req : Request := ⟨"POST", "https://oauth.reddit.com/api/set_subreddit_sticky", params, none⟩
    let res := run_auth_request app.conn t req
    ((match res.1 with
      | .ok _ => Outcome.ok ()
      | .error e => Outcome.err e), res.2)
  match slot with
  | some num =>
      if num ≠ 1 ∧ num ≠ 2 then (.err .BadRequest, [])
      else finish (insertParam params0 "num" (toString num))
  | none => finish params0

/-- Embedding of `App::load_thing` (lib.rs lines 244-261).  The polymorphic
`Thing::from_value` of the missing `data` module is the parameter
`fromValue`.  The `names` parameter map is built by the source but never
attached to the GET request, which the embedding reproduces. -/
def load_thing {T : Type} (fromValue : Value → Except RedditError T)
    (t : Transport) (app : App) (fullname : String) :
    Outcome T × List Request :=
  let _params := insertParam [] "names" fullname
  let req : Request := ⟨"GET", "https://www.reddit.com/by_id/" ++ fullname ++ "/.json", [], none⟩
  let res := run_request t req
  ((match res.1 with
    | .error e => .err e
    | .ok v => .ofExcept (fromValue v)), res.2)

/-- Embedding of `App::message` (lib.rs lines 263-283): builds the form
parameters, runs the request authenticated, and maps success to unit while
returning any error to the caller. -/
def message (t : Transport) (app : App) (recipient subject body : String) :
    Outcome Unit × List Request :=
  let params := insertParam (insertParam (insertParam [] "to" recipient) "subject" subject) "text" body
  let req : Request := ⟨"POST", "https://oauth.reddit.com/api/compose/.json", params, none⟩
  let res := run_auth_request app.conn t req
  ((match res.1 with
    | .ok _ => .ok ()
    | .error e => .err e), res.2)

end App

/-- Modelled from the spec: a bearer token with its expiry instant (§3,
Session data model). -/
structure Token where
  value : String
  expiry : Nat
deriving Repr, DecidableEq

/-- Modelled from the spec: the Session of §4.1 — the stored credentials and
the optional live token.  The failed state is the state with no token. -/
structure Session where
  creds : Credentials
  token : Option Token
deriving Repr, DecidableEq

/-- Modelled from the spec: `Session.token_for_request` (§4.1).  The grant
exchange is the oracle `grant`; `now` is the current instant.  Returns the
result, the updated session, and the list of credentials handed to the grant
exchange during the call. -/
def Session.token_for_request (grant : Credentials → Except Unit Token)
    (now : Nat) (s : Session) :
    Except RedditError Token × Session × List Credentials :=
  match s.token with
  | none => (.error .Forbidden, s, [])
  | some tok =>
      if now < tok.expiry then (.ok tok, s, [])
      else
        match grant s.creds with
        | .ok tok2 => (.ok tok2, { s with token := some tok2 }, [s.creds])
        | .error _ => (.error .Forbidden, { s with token := none }, [s.creds])

/-- Number of live tokens a connection holds. -/
def App.liveTokens (app : App) : Nat :=
  match app.conn.auth with
  | some _ => 1
  | none => 0

/-- Number of live tokens a session holds. -/
def Session.liveTokens (s : Session) : Nat :=
  match s.token with
  | some _ => 1
  | none => 0

/-- Modelled from the spec: the Paginator (§4.3; the `data::Comments`
iterator that realises it is not under src/).  `fetch` runs one listing query
with the given `after` cursor; `fuel` bounds the number of pages fetched (the
theorems show a chain's length is enough fuel).  The first fetch carries no
cursor; each later fetch carries the prior page's `after` cursor; the
sequence ends when a page has no `after` cursor or an empty item sequence,
and a fetch failure surfaces to the consumer at the point of failure. -/
def paginate {T : Type} (fetch : Option String → Except RedditError (Listing T)) :
    Nat → Option String → Except RedditError (List T)
  | 0, _ => .ok []
  | fuel + 1, cursor =>
    match fetch cursor with
    | .error e => .error e
    | .ok page =>
      match page.children with
      | [] => .ok []
      | _ =>
        match page.after with
        | none => .ok page.children
        | some c =>
          match paginate fetch fuel (some c) with
          | .error e => .error e
          | .ok rest => .ok (page.children ++ rest)

/-- A list of pages is the exact chain the paginator walks from cursor `c`:
each page is what `fetch` returns for the cursor reached so far, every page
before the last has items and an `after` cursor (so the walk continues), and
the last page is terminal (no `after` cursor, or no items). -/
def isChain {T : Type} (fetch : Option String → Except RedditError (Listing T)) :
    Option String → List (Listing T) → Prop
  | _, [] => False
  | c, [p] => fetch c = .ok p ∧ (p.after = none ∨ p.children = [])
  | c, p :: q :: ps => fetch c = .ok p ∧ p.children ≠ [] ∧
      ∃ c2, p.after = some c2 ∧ isChain fetch (some c2) (q :: ps)

/-- A transport that fails every request at the network level. -/
def failTransport : Transport := fun _ => .error ()

/-- An app whose connection already holds a token. -/
def authedApp : App := ⟨⟨some ⟨"tok"⟩⟩⟩

/-- An app whose connection holds no token. -/
def anonApp : App := ⟨⟨none⟩⟩

/-- A concrete three-page fetch oracle realising the spec's mock pagination
scenario: P0 with items a, b and cursor c1; P1 with item c and cursor c2; P2
with item d and no cursor. -/
def mockFetch : Option String → Except RedditError (Listing String)
  | none => .ok ⟨none, some "c1", ["a", "b"]⟩
  | some c =>
      if c = "c1" then .ok ⟨none, some "c2", ["c"]⟩
      else if c = "c2" then .ok ⟨none, none, ["d"]⟩
      else .error .NotFound

/-- Lifting an Except result never produces a panic. -/
theorem ofExcept_ne_panic {α : Type} (r : Except RedditError α) :
    Outcome.ofExcept r ≠ .panic := by
  cases r <;> simp [Outcome.ofExcept]

/-- Walking a fetch chain from any cursor with enough fuel yields the
concatenation of the chain's item sequences. -/
theorem isChain_paginate {T : Type}
    (fetch : Option String → Except RedditError (Listing T)) :
    ∀ (ps : List (Listing T)) (c : Option String) (fuel : Nat),
      isChain fetch c ps → ps.length ≤ fuel →
      paginate fetch fuel c = .ok (ps.flatMap Listing.children) := by
  intro ps
  induction ps with
  | nil => intro c fuel hchain _; simp [isChain] at hchain
  | cons p rest ih =>
    intro c fuel hchain hfuel
    obtain ⟨f, rfl⟩ : ∃ f, fuel = f + 1 := by
      cases fuel with
      | zero => simp at hfuel
      | succ f2 => exact ⟨f2, rfl⟩
    obtain ⟨pb, pa, pc⟩ := p
    cases rest with
    | nil =>
      obtain ⟨hf, hterm⟩ := hchain
      cases pc with
      | nil => simp [paginate, hf]
      | cons x xs =>
        have hafter : pa = none := by
          rcases hterm with h | h
          · exact h
          · simp at h
        subst hafter
        simp [paginate, hf]
    | cons q qs =>
      obtain ⟨hf, hne, c2, hafter, hrest⟩ := hchain
      subst hafter
      cases pc with
      | nil => simp at hne
      | cons x xs =>
        have hrec := ih (some c2) f hrest (by simpa using hfuel)
        simp [paginate, hf, hrec]

/-- C1: for every post id, `get_comment_tree` runs exactly one GET of the
post's comment page and, when the fetch succeeds with JSON value `v`,
returns exactly the `Listing<Comment>` parsed from logical section 1 of the
response array, so the post body at section 0 is discarded. -/
theorem get_comment_tree_second_section (t : Transport) (app : App)
    (post : String) (v : Value)
    (h : t ⟨"GET", "https://www.reddit.com/comments/" ++ post ++ "/.json", [], none⟩
         = .ok ⟨200, some v⟩) :
    App.get_comment_tree t app post =
      (Outcome.ofExcept (Listing.from_value (Value.index v 1)),
       [⟨"GET", "https://www.reddit.com/comments/" ++ post ++ "/.json", [], none⟩]) := by
  simp [App.get_comment_tree, run_request, h, classifyResponse]

/-- Witness for C1: a concrete response whose section 0 is a post body and
whose section 1 is an empty comment listing. -/
theorem get_comment_tree_second_section_witness :
    App.get_comment_tree
      (fun _ => .ok ⟨200, some (Value.arr [Value.str "postbody",
        Value.obj [("kind", Value.str "Listing"),
                   ("data", Value.obj [("children", Value.arr [])])]])⟩)
      anonApp "abc"
    = (Outcome.ofExcept (Listing.from_value (Value.index (Value.arr [Value.str "postbody",
        Value.obj [("kind", Value.str "Listing"),
                   ("data", Value.obj [("children", Value.arr [])])]]) 1)),
       [⟨"GET", "https://www.reddit.com/comments/abc/.json", [], none⟩]) :=
  get_comment_tree_second_section _ anonApp "abc" _ rfl

/-- C2: the source body of `App::more_children` is empty — for every input it
returns unit, performs no batch fetch of the stub's child IDs and reconstructs
no comments, contradicting both its own doc comment ("Load more comments")
and the contract §4.4 assigns the operation. -/
theorem more_children_unimplemented (t : Transport) (app : App)
    (cs : List String) :
    App.more_children t app cs = ((), []) := rfl

/-- C4: `authorize` performs exactly one grant attempt (the next attempt index
moves from `i` to `i + 1` whatever happens); on grant failure it returns
`Forbidden` and leaves the connection's auth untouched, and on success it
returns `Ok` with the obtained token stored in the connection. -/
theorem authorize_single_attempt (grant : Credentials → Nat → Except Unit Auth)
    (i : Nat) (app : App) (creds : Credentials) :
    (App.authorize grant i app creds).2.2 = i + 1 ∧
    (App.authorize grant i app creds).1 =
      (match grant creds i with
       | .ok _ => .ok ()
       | .error _ => .error .Forbidden) ∧
    (App.authorize grant i app creds).2.1.conn.auth =
      (match grant creds i with
       | .ok a => some a
       | .error _ => app.conn.auth) := by
  cases h : grant creds i <;> simp [App.authorize, h]

/-- C3 counterexample: with an authorized connection and a transport that
fails at the network level, `App::comment` converts the request failure into
a panic — the source calls `.unwrap()` on the request result — instead of
returning it as an error value. -/
theorem comment_panics_on_request_failure :
    (App.comment failTransport authedApp "hello" "t3_x").1 = .panic := rfl

/-- C3 amended: every public operation except `App::comment` returns request
failures to its immediate caller as error values: whenever the request it
runs comes back with error `e`, the operation's outcome is exactly the error
value `err e` (and never a panic under any transport), while `App::comment`
converts any request failure into a panic and never returns an error value
to its caller. -/
theorem request_failures_return_as_errors
    (pw : String → List (String × String) → Option String)
    (fv : Value → Except RedditError Value)
    (t : Transport) (app : App)
    (sub title text name post thing fullname rcpt subj bdy id2 url : String)
    (sort : SortOrder) (sticky sendreplies : Bool) (slot : Option Int)
    (e : RedditError) :
    (pw ("https://www.reddit.com/r/" ++ sub ++ "/.json") sort.param = some url →
      (run_request t ⟨"GET", url, [], none⟩).1 = .error e →
      (App.get_posts pw t app sub sort).1 = .err e) ∧
    ((run_auth_request app.conn t ⟨"POST", "https://oauth.reddit.com/api/submit/.json",
        insertParam (insertParam (insertParam (insertParam (insertParam []
          "sr" sub) "kind" "self") "title" title) "text" text)
          "sendreplies" (if sendreplies then "true" else "false"), none⟩).1 = .error e →
      (App.submit_self t app sub title text sendreplies).1 = .err e) ∧
    ((run_auth_request app.conn t
        ⟨"GET", "https://oauth.reddit.com/api/v1/me/.json", [], none⟩).1 = .error e →
      (App.get_self t app).1 = .err e) ∧
    ((run_request t ⟨"GET", "https://www.reddit.com/user/" ++ name ++ "/about/.json",
        [], none⟩).1 = .error e →
      (App.get_user t app name).1 = .err e) ∧
    ((run_request t ⟨"GET", "https://www.reddit.com/comments/" ++ post ++ "/.json",
        [], none⟩).1 = .error e →
      (App.get_comment_tree t app post).1 = .err e) ∧
    ((run_auth_request app.conn t ⟨"POST", "https://oauth.reddit.com/api/set_subreddit_sticky",
        insertParam (insertParam [] "state" (if sticky then "1" else "0")) "id" id2,
        none⟩).1 = .error e →
      (App.set_sticky t app sticky none id2).1 = .err e) ∧
    ((run_auth_request app.conn t ⟨"POST", "https://oauth.reddit.com/api/set_subreddit_sticky",
        insertParam (insertParam (insertParam [] "state" (if sticky then "1" else "0"))
          "num" (toString (1 : Int))) "id" id2, none⟩).1 = .error e →
      (App.set_sticky t app sticky (some 1) id2).1 = .err e) ∧
    ((run_auth_request app.conn t ⟨"POST", "https://oauth.reddit.com/api/set_subreddit_sticky",
        insertParam (insertParam (insertParam [] "state" (if sticky then "1" else "0"))
          "num" (toString (2 : Int))) "id" id2, none⟩).1 = .error e →
      (App.set_sticky t app sticky (some 2) id2).1 = .err e) ∧
    ((run_request t ⟨"GET", "https://www.reddit.com/by_id/" ++ fullname ++ "/.json",
        [], none⟩).1 = .error e →
      (App.load_thing fv t app fullname).1 = .err e) ∧
    ((run_auth_request app.conn t ⟨"POST", "https://oauth.reddit.com/api/compose/.json",
        insertParam (insertParam (insertParam [] "to" rcpt) "subject" subj) "text" bdy,
        none⟩).1 = .error e →
      (App.message t app rcpt subj bdy).1 = .err e) ∧
    ((run_auth_request app.conn t ⟨"POST", "https://oauth.reddit.com/api/comment",
        insertParam (insertParam [] "text" text) "thing_id" thing, none⟩).1 = .error e →
      (App.comment t app text thing).1 = .panic) ∧
    (App.get_posts pw t app sub sort).1 ≠ .panic ∧
    (App.submit_self t app sub title text sendreplies).1 ≠ .panic ∧
    (App.get_self t app).1 ≠ .panic ∧
    (App.get_user t app name).1 ≠ .panic ∧
    (App.get_comment_tree t app post).1 ≠ .panic ∧
    (App.set_sticky t app sticky slot id2).1 ≠ .panic ∧
    (App.load_thing fv t app fullname).1 ≠ .panic ∧
    (App.message t app rcpt subj bdy).1 ≠ .panic ∧
    (∀ e2, (App.comment t app text thing).1 ≠ .err e2) := by
  refine ⟨?_, ?_, ?_, ?_, ?_, ?_, ?_, ?_, ?_, ?_, ?_, ?_, ?_, ?_, ?_, ?_, ?_, ?_, ?_, ?_⟩
  · intro h1 h2
    simp [App.get_posts, h1, h2, Outcome.ofExcept]
  · intro h
    simp [App.submit_self, h, Outcome.ofExcept]
  · intro h
    simp [App.get_self, h, Outcome.ofExcept]
  · intro h
    simp [App.get_user, h, Outcome.ofExcept]
  · intro h
    simp [App.get_comment_tree, h]
  · intro h
    simp [App.set_sticky, h]
  · intro h
    simp [App.set_sticky, h]
  · intro h
    simp [App.set_sticky, h]
  · intro h
    simp [App.load_thing, h]
  · intro h
    simp [App.message, h]
  · intro h
    simp [App.comment, h]
  · cases h : pw ("https://www.reddit.com/r/" ++ sub ++ "/.json") sort.param with
    | some u2 => simpa [App.get_posts, h] using ofExcept_ne_panic _
    | none => simp [App.get_posts, h]
  · simpa [App.submit_self] using ofExcept_ne_panic _
  · simpa [App.get_self] using ofExcept_ne_panic _
  · simpa [App.get_user] using ofExcept_ne_panic _
  · simp only [App.get_comment_tree]
    split
    · simp
    · simpa using ofExcept_ne_panic _
  · simp only [App.set_sticky]
    split
    · split
      · simp
      · split <;> simp
    · split <;> simp
  · simp only [App.load_thing]
    split
    · simp
    · simpa using ofExcept_ne_panic _
  · simp only [App.message]
    split <;> simp
  · intro e2
    simp only [App.comment]
    split <;> simp

/-- C5: both the unauthenticated and the authenticated request paths classify
the HTTP response the same way: 2xx with parseable JSON body succeeds with
the parsed value, 2xx without one is BadResponse, 400 is BadRequest, 401 and
403 are Forbidden, 404 is NotFound, and every other status is BadResponse. -/
theorem http_status_mapping (conn : Connection) (a : Auth) (t : Transport)
    (req : Request) (r : HttpResponse)
    (hconn : conn.auth = some a)
    (hu : t req = .ok r) (ha : t (withAuth a req) = .ok r) :
    ((run_request t req).1 = classifyResponse r ∧
     (run_auth_request conn t req).1 = classifyResponse r) ∧
    (∀ v, 200 ≤ r.status → r.status < 300 → r.body = some v →
      classifyResponse r = .ok v) ∧
    (r.body = none → 200 ≤ r.status → r.status < 300 →
      classifyResponse r = .error .BadResponse) ∧
    (r.status = 400 → classifyResponse r = .error .BadRequest) ∧
    (r.status = 401 ∨ r.status = 403 → classifyResponse r = .error .Forbidden) ∧
    (r.status = 404 → classifyResponse r = .error .NotFound) ∧
    (¬(200 ≤ r.status ∧ r.status < 300) → r.status ≠ 400 → r.status ≠ 401 →
      r.status ≠ 403 → r.status ≠ 404 →
      classifyResponse r = .error .BadResponse) := by
  refine ⟨⟨by simp [run_request, hu],
           by simp [run_auth_request, hconn, run_request, ha]⟩,
          ?_, ?_, ?_, ?_, ?_, ?_⟩
  · intro v h1 h2 hb; simp [classifyResponse, h1, h2, hb]
  · intro hb h1 h2; simp [classifyResponse, h1, h2, hb]
  · intro h; simp [classifyResponse, h]
  · intro h; rcases h with h | h <;> simp [classifyResponse, h]
  · intro h; simp [classifyResponse, h]
  · intro h1 h2 h3 h4 h5; simp [classifyResponse, h1, h2, h3, h4, h5]

/-- Witness for C5: a concrete 404 response maps to NotFound on both the
unauthenticated and the authenticated path. -/
theorem http_status_mapping_witness :
    (run_request (fun _ => .ok ⟨404, none⟩) ⟨"GET", "u", [], none⟩).1
      = .error .NotFound ∧
    (run_auth_request ⟨some ⟨"tok"⟩⟩ (fun _ => .ok ⟨404, none⟩)
      ⟨"GET", "u", [], none⟩).1 = .error .NotFound := by
  have h := http_status_mapping ⟨some ⟨"tok"⟩⟩ ⟨"tok"⟩ (fun _ => .ok ⟨404, none⟩)
    ⟨"GET", "u", [], none⟩ ⟨404, none⟩ rfl rfl rfl
  refine ⟨?_, ?_⟩
  · rw [h.1.1]; exact h.2.2.2.2.2.1 rfl
  · rw [h.1.2]; exact h.2.2.2.2.2.1 rfl

/-- Witness for C3 amended: with an authorized connection and a transport
that fails every request at the network level, each operation returns the
Transient failure as an error value, while `comment` panics. -/
theorem request_failures_return_as_errors_witness :
    (App.get_posts (fun _ _ => some "u0") failTransport authedApp "sub" .hot).1
      = .err .Transient ∧
    (App.submit_self failTransport authedApp "sub" "ti" "tx" true).1
      = .err .Transient ∧
    (App.get_self failTransport authedApp).1 = .err .Transient ∧
    (App.get_user failTransport authedApp "nm").1 = .err .Transient ∧
    (App.get_comment_tree failTransport authedApp "po").1 = .err .Transient ∧
    (App.set_sticky failTransport authedApp true none "idx").1 = .err .Transient ∧
    (App.set_sticky failTransport authedApp true (some 1) "idx").1 = .err .Transient ∧
    (App.set_sticky failTransport authedApp true (some 2) "idx").1 = .err .Transient ∧
    (App.load_thing (fun v => .ok v) failTransport authedApp "fn").1
      = .err .Transient ∧
    (App.message failTransport authedApp "rc" "sj" "bd").1 = .err .Transient ∧
    (App.comment failTransport authedApp "tx" "th").1 = .panic := by
  have h := request_failures_return_as_errors (fun _ _ => some "u0") (fun v => .ok v)
    failTransport authedApp "sub" "ti" "tx" "nm" "po" "th" "fn" "rc" "sj" "bd" "idx"
    "u0" .hot true true none .Transient
  exact ⟨h.1 rfl rfl, h.2.1 rfl, h.2.2.1 rfl, h.2.2.2.1 rfl, h.2.2.2.2.1 rfl,
    h.2.2.2.2.2.1 rfl, h.2.2.2.2.2.2.1 rfl, h.2.2.2.2.2.2.2.1 rfl,
    h.2.2.2.2.2.2.2.2.1 rfl, h.2.2.2.2.2.2.2.2.2.1 rfl,
    h.2.2.2.2.2.2.2.2.2.2.1 rfl⟩

/-- C6: for any fetch chain — first page fetched with no cursor, each later
page fetched with the prior page's `after` cursor, every non-final page with
items and an `after` cursor, the final page terminal (no `after` cursor or no
items) — `paginate` yields exactly the pages' item sequences concatenated in
server order, and the chain's page count is enough fuel (it terminates
there). -/
theorem paginate_yields_concatenation {T : Type}
    (fetch : Option String → Except RedditError (Listing T))
    (ps : List (Listing T)) (fuel : Nat)
    (hchain : isChain fetch none ps) (hfuel : ps.length ≤ fuel) :
    paginate fetch fuel none = .ok (ps.flatMap Listing.children) :=
  isChain_paginate fetch ps none fuel hchain hfuel

/-- Witness for C6: the spec's mock scenario — P0 with items a, b and cursor
c1, P1 with item c and cursor c2, P2 with item d and no cursor — yields
exactly a, b, c, d. -/
theorem paginate_yields_concatenation_witness :
    paginate mockFetch 3 none = .ok ["a", "b", "c", "d"] := by
  have hc : isChain mockFetch none
      [⟨none, some "c1", ["a", "b"]⟩, ⟨none, some "c2", ["c"]⟩,
       ⟨none, none, ["d"]⟩] :=
    ⟨rfl, by simp, "c1", rfl, by simp [mockFetch], by simp, "c2",
     rfl, by simp [mockFetch], Or.inl rfl⟩
  exact paginate_yields_concatenation mockFetch _ 3 hc (by simp)

/-- A session holds at most one live token. -/
theorem session_liveTokens_le_one (s : Session) : s.liveTokens ≤ 1 := by
  cases h : s.token <;> simp [Session.liveTokens, h]

/-- A connection holds at most one live token. -/
theorem app_liveTokens_le_one (app : App) : app.liveTokens ≤ 1 := by
  cases h : app.conn.auth <;> simp [App.liveTokens, h]

/-- C7: at most one token is ever live — the connection's auth is a single
optional value, every successful `authorize` replaces it with exactly the new
token, and the session's automatic re-authentication hands the grant exchange
the originally stored credentials only, never changing them. -/
theorem single_live_token (grant : Credentials → Nat → Except Unit Auth)
    (i : Nat) (app : App) (creds : Credentials)
    (regrant : Credentials → Except Unit Token) (now : Nat) (s : Session) :
    App.liveTokens app ≤ 1 ∧
    App.liveTokens (App.authorize grant i app creds).2.1 ≤ 1 ∧
    (∀ a, grant creds i = .ok a →
      (App.authorize grant i app creds).2.1.conn.auth = some a) ∧
    ((s.token_for_request regrant now).2.2 = [] ∨
      (s.token_for_request regrant now).2.2 = [s.creds]) ∧
    (s.token_for_request regrant now).2.1.creds = s.creds ∧
    Session.liveTokens (s.token_for_request regrant now).2.1 ≤ 1 := by
  refine ⟨app_liveTokens_le_one app, app_liveTokens_le_one _, ?_, ?_, ?_,
    session_liveTokens_le_one _⟩
  · intro a ha
    simp [App.authorize, ha]
  · simp only [Session.token_for_request]
    split
    · simp
    · split
      · simp
      · split <;> simp
  · simp only [Session.token_for_request]
    split
    · simp
    · split
      · simp
      · split <;> simp

/-- Witness for C7: a successful re-authorize on an already-authorized app
stores exactly the new token, and an expired session re-authenticates with
the stored credentials. -/
theorem single_live_token_witness :
    App.liveTokens (App.authorize (fun _ _ => .ok ⟨"tok2"⟩) 0 authedApp
      ⟨"u", "p"⟩).2.1 ≤ 1 ∧
    (App.authorize (fun _ _ => .ok ⟨"tok2"⟩) 0 authedApp ⟨"u", "p"⟩).2.1.conn.auth
      = some ⟨"tok2"⟩ ∧
    (((⟨⟨"u", "p"⟩, some ⟨"t", 5⟩⟩ : Session).token_for_request
        (fun _ => .error ()) 10).2.2 = [] ∨
      ((⟨⟨"u", "p"⟩, some ⟨"t", 5⟩⟩ : Session).token_for_request
        (fun _ => .error ()) 10).2.2 = [⟨"u", "p"⟩]) ∧
    ((⟨⟨"u", "p"⟩, some ⟨"t", 5⟩⟩ : Session).token_for_request
      (fun _ => .error ()) 10).2.1.creds = ⟨"u", "p"⟩ := by
  have h := single_live_token (fun _ _ => .ok ⟨"tok2"⟩) 0 authedApp ⟨"u", "p"⟩
    (fun _ => .error ()) 10 ⟨⟨"u", "p"⟩, some ⟨"t", 5⟩⟩
  exact ⟨h.2.1, h.2.2.1 ⟨"tok2"⟩ rfl, h.2.2.2.1, h.2.2.2.2.1⟩

/-- Requests issued by the authenticated path are exactly the given request
with the session token attached, and only when a token is held. -/
theorem run_auth_request_log (conn : Connection) (t : Transport)
    (req : Request) :
    ∀ r, r ∈ (run_auth_request conn t req).2 →
      ∃ a, conn.auth = some a ∧ r = withAuth a req := by
  intro r hr
  cases h : conn.auth with
  | none => simp [run_auth_request, h] at hr
  | some a =>
    simp [run_auth_request, run_request, h] at hr
    exact ⟨a, rfl, hr⟩

/-- C8: `set_sticky` with a slot other than 1 or 2 returns `BadRequest` and
issues no request; with no slot the issued form has no `num` parameter; with
slot 1 or 2 the issued form's `num` parameter is the slot number. -/
theorem set_sticky_slot_validation (t : Transport) (app : App) (sticky : Bool)
    (id2 : String) :
    (∀ n : Int, n ≠ 1 → n ≠ 2 →
      App.set_sticky t app sticky (some n) id2 = (.err .BadRequest, [])) ∧
    (∀ req, req ∈ (App.set_sticky t app sticky none id2).2 →
      req.form.lookup "num" = none) ∧
    (∀ req, req ∈ (App.set_sticky t app sticky (some 1) id2).2 →
      req.form.lookup "num" = some "1") ∧
    (∀ req, req ∈ (App.set_sticky t app sticky (some 2) id2).2 →
      req.form.lookup "num" = some "2") := by
  refine ⟨?_, ?_, ?_, ?_⟩
  · intro n h1 h2
    simp [App.set_sticky, h1, h2]
  · intro req hreq
    simp only [App.set_sticky] at hreq
    obtain ⟨a, -, rfl⟩ := run_auth_request_log app.conn t _ req hreq
    simp [withAuth, insertParam, List.lookup]
  · intro req hreq
    simp only [App.set_sticky] at hreq
    rw [if_neg (by simp)] at hreq
    obtain ⟨a, -, rfl⟩ := run_auth_request_log app.conn t _ req hreq
    simp [withAuth, insertParam, List.lookup]
    decide
  · intro req hreq
    simp only [App.set_sticky] at hreq
    rw [if_neg (by simp)] at hreq
    obtain ⟨a, -, rfl⟩ := run_auth_request_log app.conn t _ req hreq
    simp [withAuth, insertParam, List.lookup]
    decide

/-- Witness for C8: slot 3 is rejected with no request, and the concrete
issued form for slot 1 carries num = 1. -/
theorem set_sticky_slot_validation_witness :
    App.set_sticky failTransport authedApp true (some 3) "t3_x"
      = (.err .BadRequest, []) ∧
    (withAuth ⟨"tok"⟩ ⟨"POST", "https://oauth.reddit.com/api/set_subreddit_sticky",
      insertParam (insertParam (insertParam [] "state" "1") "num" "1") "id" "t3_x",
      none⟩).form.lookup "num" = some "1" := by
  refine ⟨(set_sticky_slot_validation failTransport authedApp true "t3_x").1 3
    (by decide) (by decide), ?_⟩
  exact (set_sticky_slot_validation failTransport authedApp true "t3_x").2.2.1
    (withAuth ⟨"tok"⟩ ⟨"POST", "https://oauth.reddit.com/api/set_subreddit_sticky",
      insertParam (insertParam (insertParam [] "state" "1") "num" "1") "id" "t3_x",
      none⟩) (by decide)

/-- C9: when the URL built from the subreddit name and the sort's query
parameters does not form, `get_posts` returns `BadRequest` and issues no
request; otherwise it issues exactly one unauthenticated GET request to the
resulting subreddit JSON endpoint and returns its classified result. -/
theorem get_posts_url_validation
    (pw : String → List (String × String) → Option String)
    (t : Transport) (app : App) (sub : String) (sort : SortOrder) :
    (pw ("https://www.reddit.com/r/" ++ sub ++ "/.json") sort.param = none →
      App.get_posts pw t app sub sort = (.err .BadRequest, [])) ∧
    (∀ url, pw ("https://www.reddit.com/r/" ++ sub ++ "/.json") sort.param = some url →
      (App.get_posts pw t app sub sort).2 = [⟨"GET", url, [], none⟩] ∧
      (App.get_posts pw t app sub sort).1 =
        .ofExcept (run_request t ⟨"GET", url, [], none⟩).1) := by
  refine ⟨?_, ?_⟩
  · intro h
    simp [App.get_posts, h]
  · intro url h
    simp [App.get_posts, h, run_request]

/-- Witness for C9: a failing URL oracle gives BadRequest with no request; a
succeeding one gives exactly one unauthenticated request to the built URL. -/
theorem get_posts_url_validation_witness :
    App.get_posts (fun _ _ => none) failTransport anonApp "rust" .hot
      = (.err .BadRequest, []) ∧
    (App.get_posts (fun b _ => some b) failTransport anonApp "rust" .hot).2
      = [⟨"GET", "https://www.reddit.com/r/rust/.json", [], none⟩] := by
  refine ⟨(get_posts_url_validation (fun _ _ => none) failTransport anonApp
    "rust" .hot).1 rfl, ?_⟩
  exact ((get_posts_url_validation (fun b _ => some b) failTransport anonApp
    "rust" .hot).2 "https://www.reddit.com/r/rust/.json" rfl).1

/-- C10: every request issued by `submit_self` carries a form consisting of
exactly the parameters sr (the subreddit), kind = self, title, text, and
sendreplies rendered as the string true or false. -/
theorem submit_self_form (t : Transport) (app : App) (sub title text : String)
    (sendreplies : Bool) :
    ∀ req, req ∈ (App.submit_self t app sub title text sendreplies).2 →
      req.form.lookup "sr" = some sub ∧
      req.form.lookup "kind" = some "self" ∧
      req.form.lookup "title" = some title ∧
      req.form.lookup "text" = some text ∧
      req.form.lookup "sendreplies"
        = some (if sendreplies then "true" else "false") ∧
      req.form.map Prod.fst = ["sr", "kind", "title", "text", "sendreplies"] := by
  intro req hreq
  simp only [App.submit_self] at hreq
  obtain ⟨a, -, rfl⟩ := run_auth_request_log app.conn t _ req hreq
  simp [withAuth, insertParam, List.lookup]

/-- Witness for C10: the concrete issued form of a submit_self call. -/
theorem submit_self_form_witness :
    (withAuth ⟨"tok"⟩ ⟨"POST", "https://oauth.reddit.com/api/submit/.json",
      [("sr", "rust"), ("kind", "self"), ("title", "ti"), ("text", "tx"),
       ("sendreplies", "true")], none⟩).form.lookup "sr" = some "rust" ∧
    (withAuth ⟨"tok"⟩ ⟨"POST", "https://oauth.reddit.com/api/submit/.json",
      [("sr", "rust"), ("kind", "self"), ("title", "ti"), ("text", "tx"),
       ("sendreplies", "true")], none⟩).form.map Prod.fst
      = ["sr", "kind", "title", "text", "sendreplies"] := by
  have h := submit_self_form failTransport authedApp "rust" "ti" "tx" true
    (withAuth ⟨"tok"⟩ ⟨"POST", "https://oauth.reddit.com/api/submit/.json",
      [("sr", "rust"), ("kind", "self"), ("title", "ti"), ("text", "tx"),
       ("sendreplies", "true")], none⟩) (by decide)
  exact ⟨h.1, h.2.2.2.2.2⟩

end Orca
